import Mathlib

/-!
Shallow embedding of `scripts/clean_grafana_folders.py`.

The script builds a header dictionary from a credential string, strips a
trailing slash from the base URL, lists all folders via a GET request,
and then issues one DELETE request per listed folder, recording a
per-folder outcome.  HTTP transport is abstracted: the result of the
listing call and the result of each DELETE call are inputs, and the
embedding returns the trace of requests issued together with the
recorded outcomes.
-/

namespace GrafanaClean

/-- A folder record as returned by the listing endpoint.  The source
reads the fields with dictionary access (`folder['uid']`,
`folder['title']`), so a field may be absent; an absent field is
`none`. -/
structure Folder where
  uid : Option String
  title : Option String
deriving DecidableEq

/-- Result of one HTTP DELETE call: either a response carrying a status
code and body text, or a transport exception
(`requests.exceptions.RequestException`) carrying a message. -/
inductive DelResult where
  | resp (status : Nat) (text : String)
  | exn (msg : String)
deriving DecidableEq

/-- An HTTP request issued by the script: method, URL and headers. -/
structure Request where
  method : String
  url : String
  headers : List (String × String)
deriving DecidableEq

/-- Per-folder outcome, as reported by the script's log lines:
success on a 200 response, failure (with status and body) on any other
response, error (with message) on a transport exception. -/
inductive Outcome where
  | success (title : String)
  | failure (title : String) (status : Nat) (text : String)
  | error (title : String) (msg : String)
deriving DecidableEq

/-- The Authorization header value (source line 20): the credential is
used unchanged when the literal substring `"Basic"` or `"Bearer"`
occurs anywhere in it (Python's `in` operator), and is wrapped as
`"Bearer <credential>"` otherwise. -/
def authHeader (auth : String) : String :=
  if ("Basic".toList <:+: auth.toList) ∨ ("Bearer".toList <:+: auth.toList) then
    auth
  else
    "Bearer " ++ auth

/-- The header dictionary, built once (source lines 18-21). -/
def mkHeaders (auth : String) : List (String × String) :=
  [("Content-Type", "application/json"), ("Authorization", authHeader auth)]

/-- Trailing-slash removal (source lines 23-25): `url[:-1]` (all
characters but the last) when the URL ends with `"/"`, the URL
unchanged otherwise. -/
def stripTrailingSlash (url : String) : String :=
  if "/".toList <:+ url.toList then String.mk url.toList.dropLast else url

/-- The DELETE request issued for the folder with the given uid
(source line 44). -/
def mkDelReq (base : String) (hdrs : List (String × String)) (uid : String) : Request :=
  { method := "DELETE", url := base ++ "/api/folders/" ++ uid, headers := hdrs }

/-- Outcome recording for one DELETE attempt (source lines 44-50):
a 200 status is logged as success, any other status as failure with the
status and body, and a transport exception as an error with its
message. -/
def recordOutcome (title : String) (d : DelResult) : Outcome :=
  match d with
  | .resp s t => if s = 200 then .success title else .failure title s t
  | .exn m => .error title m

/-- Result of the deletion loop: `finished` when every folder was
processed, `aborted` when dictionary access on a folder record raised
an uncaught KeyError, ending the loop early.  Both carry the DELETE
requests issued and the outcomes recorded up to that point. -/
inductive LoopResult where
  | aborted (reqs : List Request) (outs : List Outcome)
  | finished (reqs : List Request) (outs : List Outcome)
deriving DecidableEq

/-- The deletion loop (source lines 38-50).  For each folder, the uid
and title fields are read outside the try block; a missing field
aborts the whole loop before any request for that folder is issued.
Otherwise a DELETE request is issued and its outcome recorded, and the
loop continues with the remaining folders regardless of the outcome. -/
def deleteLoop (base : String) (hdrs : List (String × String))
    (delete : String → DelResult) : List Folder → LoopResult
  | [] => .finished [] []
  | f :: rest =>
    match f.uid, f.title with
    | some uid, some title =>
      match deleteLoop base hdrs delete rest with
      | .aborted rs os =>
          .aborted (mkDelReq base hdrs uid :: rs)
                   (recordOutcome title (delete uid) :: os)
      | .finished rs os =>
          .finished (mkDelReq base hdrs uid :: rs)
                    (recordOutcome title (delete uid) :: os)
    | _, _ => .aborted [] []

/-- Overall result of a run: the listing failed (caught
RequestException, early return), the loop aborted on a KeyError, or
the loop ran to completion. -/
inductive RunResult where
  | listError (msg : String)
  | keyError (reqs : List Request) (outs : List Outcome)
  | done (reqs : List Request) (outs : List Outcome)
deriving DecidableEq

/-- The whole `clean_folders` routine (source lines 11-50), with HTTP
transport abstracted: `listResult` is the outcome of the GET on
`/api/folders` (`.error` when the request raised, with
`raise_for_status` folded in), and `delete uid` is the outcome of the
DELETE for `uid`.  Returns the GET request issued together with the
run result. -/
def clean_folders (grafana_url grafana_auth : String)
    (listResult : Except String (List Folder))
    (delete : String → DelResult) : Request × RunResult :=
  let headers := mkHeaders grafana_auth
  let base := stripTrailingSlash grafana_url
  let listReq : Request :=
    { method := "GET", url := base ++ "/api/folders", headers := headers }
  match listResult with
  | .error e => (listReq, .listError e)
  | .ok folders =>
    match deleteLoop base headers delete folders with
    | .aborted rs os => (listReq, .keyError rs os)
    | .finished rs os => (listReq, .done rs os)

/-- The DELETE requests issued during a run. -/
def deleteRequests : RunResult → List Request
  | .listError _ => []
  | .keyError rs _ => rs
  | .done rs _ => rs

/-- The outcomes recorded during a run. -/
def outcomesOf : RunResult → List Outcome
  | .listError _ => []
  | .keyError _ os => os
  | .done _ os => os

/-- The batch result: the complete outcome report, produced only when
the loop ran to completion. -/
def batchResult : RunResult → Option (List Outcome)
  | .done _ os => some os
  | _ => none

/-- All requests issued during a run: the GET followed by the DELETEs. -/
def allRequests (run : Request × RunResult) : List Request :=
  run.1 :: deleteRequests run.2

/-- Requests issued by the loop. -/
def loopReqs : LoopResult → List Request
  | .aborted rs _ => rs
  | .finished rs _ => rs

/-- Outcomes recorded by the loop. -/
def loopOuts : LoopResult → List Outcome
  | .aborted _ os => os
  | .finished _ os => os

/-- Whether a DELETE result counts as success for the script: a
response with status exactly 200. -/
def delSucceeds : DelResult → Bool
  | .resp s _ => s == 200
  | .exn _ => false

/-- Whether an outcome is the success outcome. -/
def outSucceeded : Outcome → Bool
  | .success _ => true
  | _ => false

/-- A well-formed folder record built from a uid-title pair. -/
def toFolder (p : String × String) : Folder :=
  { uid := some p.1, title := some p.2 }

/-- The recorded outcome is the success outcome exactly when the DELETE
result was a 200 response. -/
theorem outSucceeded_recordOutcome (t : String) (d : DelResult) :
    outSucceeded (recordOutcome t d) = delSucceeds d := by
  cases d with
  | resp s body =>
    by_cases h : s = 200
    · subst h; rfl
    · simp [recordOutcome, outSucceeded, delSucceeds, h]
  | exn m => rfl

/-- On a listing of well-formed folder records the loop runs to
completion, issuing one DELETE request per record and recording one
outcome per record, in listing order. -/
theorem deleteLoop_toFolder (base : String) (hdrs : List (String × String))
    (delete : String → DelResult) (wf : List (String × String)) :
    deleteLoop base hdrs delete (wf.map toFolder) =
      .finished (wf.map fun p => mkDelReq base hdrs p.1)
                (wf.map fun p => recordOutcome p.2 (delete p.1)) := by
  induction wf with
  | nil => rfl
  | cons p rest ih => simp [deleteLoop, toFolder, ih]

/-- A folder record with a missing uid or title field aborts the loop:
only the earlier, well-formed records produce requests and outcomes,
and the records after the malformed one are never reached. -/
theorem deleteLoop_aborts (base : String) (hdrs : List (String × String))
    (delete : String → DelResult) (wf : List (String × String))
    (f : Folder) (post : List Folder) (hbad : f.uid = none ∨ f.title = none) :
    deleteLoop base hdrs delete (wf.map toFolder ++ f :: post) =
      .aborted (wf.map fun p => mkDelReq base hdrs p.1)
               (wf.map fun p => recordOutcome p.2 (delete p.1)) := by
  induction wf with
  | nil =>
    simp only [List.map_nil, List.nil_append]
    rcases f with ⟨_ | u, _ | t⟩
    · simp [deleteLoop]
    · simp [deleteLoop]
    · simp [deleteLoop]
    · rcases hbad with h | h <;> simp at h
  | cons p rest ih =>
    simp only [List.map_cons, List.cons_append]
    simp [deleteLoop, toFolder, ih]

/-- Every request issued by the loop is a DELETE request built from the
stripped base URL, the shared headers and some folder uid. -/
theorem loopReqs_shape (base : String) (hdrs : List (String × String))
    (delete : String → DelResult) :
    ∀ folders : List Folder,
      ∀ r ∈ loopReqs (deleteLoop base hdrs delete folders),
        ∃ uid, r = mkDelReq base hdrs uid := by
  intro folders
  induction folders with
  | nil => intro r hr; simp [deleteLoop, loopReqs] at hr
  | cons f rest ih =>
    intro r hr
    rcases f with ⟨_ | u, _ | t⟩
    · simp [deleteLoop, loopReqs] at hr
    · simp [deleteLoop, loopReqs] at hr
    · simp [deleteLoop, loopReqs] at hr
    · cases hrec : deleteLoop base hdrs delete rest with
      | aborted rs os =>
        simp [deleteLoop, hrec, loopReqs] at hr
        rcases hr with rfl | hr
        · exact ⟨u, rfl⟩
        · exact ih r (by simp [hrec, loopReqs, hr])
      | finished rs os =>
        simp [deleteLoop, hrec, loopReqs] at hr
        rcases hr with rfl | hr
        · exact ⟨u, rfl⟩
        · exact ih r (by simp [hrec, loopReqs, hr])

/-- The DELETE requests of a run with a successful listing are exactly
the requests issued by the loop. -/
theorem deleteRequests_ok (url auth : String) (folders : List Folder)
    (delete : String → DelResult) :
    deleteRequests (clean_folders url auth (.ok folders) delete).2 =
      loopReqs (deleteLoop (stripTrailingSlash url) (mkHeaders auth) delete folders) := by
  cases h : deleteLoop (stripTrailingSlash url) (mkHeaders auth) delete folders <;>
    simp [clean_folders, h, deleteRequests, loopReqs]

/-- Claim C1: the claim states that a resource named "General" is never
the target of a delete call.  The source's loop has no exclusion check
at all: on a listing containing a folder titled "General" the script
issues a DELETE request for it (and deletes it), contradicting the
script's own warning banner, which promises to delete all folders
except 'General'. -/
theorem c1_no_general_exclusion_in_code :
    (clean_folders "http://g" "tok"
        (.ok [⟨some "g1", some "General"⟩]) (fun _ => .resp 200 "")).2 =
      .done [⟨"DELETE", "http://g/api/folders/g1", mkHeaders "tok"⟩]
            [.success "General"] := by decide

/-- Claim C2: the claim states that a listing whose non-"General" part
has size N leads to exactly N delete attempts.  On the spec's own
example listing (General, Team Dashboards, Alerts) the code makes 3
delete attempts, not 2: the "General" entry is targeted like every
other entry, in listing order. -/
theorem c2_attempts_count_includes_general :
    (deleteRequests (clean_folders "http://grafana" "tok"
        (.ok [⟨some "a1", some "General"⟩, ⟨some "b2", some "Team Dashboards"⟩,
              ⟨some "c3", some "Alerts"⟩])
        (fun _ => .resp 200 "")).2).map Request.url =
      ["http://grafana/api/folders/a1", "http://grafana/api/folders/b2",
       "http://grafana/api/folders/c3"] := by decide

/-- Claim C3: if the listing call fails, the run reports that single
fatal error, makes zero delete attempts, and produces no batch
result. -/
theorem c3_list_failure_aborts_run (url auth e : String)
    (delete : String → DelResult) :
    (clean_folders url auth (.error e) delete).2 = .listError e ∧
    deleteRequests (clean_folders url auth (.error e) delete).2 = [] ∧
    batchResult (clean_folders url auth (.error e) delete).2 = none :=
  ⟨rfl, rfl, rfl⟩

/-- Claim C4: on a listing of well-formed records, if the delete for
the resource with uid `rUid` fails while every other delete succeeds,
the loop still processes every resource: the run completes (no
per-item error propagates), one outcome is recorded per resource in
listing order with its captured detail, and an outcome is the success
outcome exactly for the resources other than `rUid`. -/
theorem c4_per_item_failure_isolation (url auth : String)
    (wf : List (String × String)) (delete : String → DelResult) (rUid : String)
    (hfail : delSucceeds (delete rUid) = false)
    (hok : ∀ u, u ≠ rUid → delSucceeds (delete u) = true) :
    (clean_folders url auth (.ok (wf.map toFolder)) delete).2 =
      .done (wf.map fun p => mkDelReq (stripTrailingSlash url) (mkHeaders auth) p.1)
            (wf.map fun p => recordOutcome p.2 (delete p.1)) ∧
    ∀ p ∈ wf, (outSucceeded (recordOutcome p.2 (delete p.1)) = true ↔ p.1 ≠ rUid) := by
  constructor
  · simp [clean_folders, deleteLoop_toFolder]
  · intro p _
    rw [outSucceeded_recordOutcome]
    constructor
    · intro hs heq
      rw [heq, hfail] at hs
      exact Bool.false_ne_true hs
    · exact hok p.1

/-- Witness for C4 at a concrete run: two folders, the delete for uid
"r" raises a transport exception, the delete for uid "x" returns 200;
the run completes with a success outcome for "x" and an error outcome
for "r". -/
theorem c4_witness :
    (clean_folders "http://g" "tok"
        (.ok ([("x", "Temp"), ("r", "Bad")].map toFolder))
        (fun u => if u = "r" then .exn "boom" else .resp 200 "ok")).2 =
      .done [mkDelReq "http://g" (mkHeaders "tok") "x",
             mkDelReq "http://g" (mkHeaders "tok") "r"]
            [.success "Temp", .error "Bad" "boom"] :=
  (c4_per_item_failure_isolation "http://g" "tok" [("x", "Temp"), ("r", "Bad")]
    (fun u => if u = "r" then .exn "boom" else .resp 200 "ok") "r"
    (by decide)
    (fun u h => by simp [delSucceeds, h])).1

/-- Claim C5: the Authorization header value is the credential
unchanged whenever "Basic" or "Bearer" occurs as a prefix of the
credential, and is the credential wrapped as "Bearer <credential>"
whenever neither "Basic" nor "Bearer" occurs as a substring of the
credential. -/
theorem c5_credential_classification (auth : String) :
    (("Basic".toList <+: auth.toList ∨ "Bearer".toList <+: auth.toList) →
        authHeader auth = auth) ∧
    ((¬ "Basic".toList <:+: auth.toList ∧ ¬ "Bearer".toList <:+: auth.toList) →
        authHeader auth = "Bearer " ++ auth) := by
  constructor
  · rintro (⟨t, ht⟩ | ⟨t, ht⟩)
    · exact if_pos (Or.inl ⟨[], t, by simpa using ht⟩)
    · exact if_pos (Or.inr ⟨[], t, by simpa using ht⟩)
  · rintro ⟨h1, h2⟩
    refine if_neg ?_
    rintro (h | h)
    · exact h1 h
    · exact h2 h

/-- Witness for C5 at concrete credentials: a "Basic ..." credential is
passed through unchanged, and a bare token is wrapped. -/
theorem c5_witness :
    authHeader "Basic dXNlcjpwdw==" = "Basic dXNlcjpwdw==" ∧
    authHeader "tok123" = "Bearer " ++ "tok123" :=
  ⟨(c5_credential_classification "Basic dXNlcjpwdw==").1 (Or.inl (by decide)),
   (c5_credential_classification "tok123").2 ⟨by decide, by decide⟩⟩

/-- Claim C6: for a delete attempt whose call returns a response, the
recorded outcome is the success outcome exactly when the status is
200; a non-200 response is recorded as a failure carrying the status
code and the body text; and the loop continues with the remaining
folders regardless. -/
theorem c6_success_iff_status_200 (base : String)
    (hdrs : List (String × String)) (delete : String → DelResult)
    (u t : String) (s : Nat) (body : String) (rest : List Folder)
    (hd : delete u = .resp s body) :
    (outSucceeded (recordOutcome t (delete u)) = true ↔ s = 200) ∧
    (s ≠ 200 → recordOutcome t (delete u) = .failure t s body) ∧
    loopOuts (deleteLoop base hdrs delete (⟨some u, some t⟩ :: rest)) =
      recordOutcome t (delete u) :: loopOuts (deleteLoop base hdrs delete rest) := by
  refine ⟨?_, ?_, ?_⟩
  · rw [outSucceeded_recordOutcome, hd]
    simp [delSucceeds]
  · intro hne
    rw [hd]
    simp [recordOutcome, hne]
  · cases hrec : deleteLoop base hdrs delete rest <;>
      simp [deleteLoop, hrec, loopOuts]

/-- Witness for C6 at the spec's example: a 403 response with body
"forbidden" yields a failure outcome carrying 403 and the body, is not
a success, and the loop goes on. -/
theorem c6_witness :
    (outSucceeded (recordOutcome "Temp" (DelResult.resp 403 "forbidden")) = true ↔
        403 = 200) ∧
    (403 ≠ 200 →
        recordOutcome "Temp" (DelResult.resp 403 "forbidden") =
          .failure "Temp" 403 "forbidden") ∧
    loopOuts (deleteLoop "http://g" (mkHeaders "t")
        (fun _ => DelResult.resp 403 "forbidden") [⟨some "x", some "Temp"⟩]) =
      recordOutcome "Temp" (DelResult.resp 403 "forbidden") ::
        loopOuts (deleteLoop "http://g" (mkHeaders "t")
          (fun _ => DelResult.resp 403 "forbidden") []) :=
  c6_success_iff_status_200 "http://g" (mkHeaders "t")
    (fun _ => DelResult.resp 403 "forbidden") "x" "Temp" 403 "forbidden" [] rfl

/-- Claim C7: a trailing "/" on the base URL is removed (and nothing
else changes) before any request URL is built: a URL ending in "/"
loses its last character, a URL not ending in "/" is unchanged, the
GET request URL is the stripped base followed by "/api/folders", and
every DELETE request URL is the stripped base followed by
"/api/folders/" and a uid. -/
theorem c7_trailing_slash_stripped (url auth : String)
    (lres : Except String (List Folder)) (delete : String → DelResult) :
    ("/".toList <:+ url.toList →
        (stripTrailingSlash url).toList = url.toList.dropLast) ∧
    (¬ "/".toList <:+ url.toList → stripTrailingSlash url = url) ∧
    (clean_folders url auth lres delete).1.url =
      stripTrailingSlash url ++ "/api/folders" ∧
    ∀ r ∈ deleteRequests (clean_folders url auth lres delete).2,
      ∃ uid, r.url = stripTrailingSlash url ++ "/api/folders/" ++ uid := by
  refine ⟨?_, ?_, ?_, ?_⟩
  · intro h
    rw [stripTrailingSlash, if_pos h]
    rfl
  · intro h
    rw [stripTrailingSlash, if_neg h]
  · cases lres with
    | error e => rfl
    | ok folders =>
      cases hfold : deleteLoop (stripTrailingSlash url) (mkHeaders auth) delete folders <;>
        simp [clean_folders, hfold]
  · intro r hr
    cases lres with
    | error e => simp [clean_folders, deleteRequests] at hr
    | ok folders =>
      rw [deleteRequests_ok] at hr
      obtain ⟨uid, rfl⟩ :=
        loopReqs_shape (stripTrailingSlash url) (mkHeaders auth) delete folders r hr
      exact ⟨uid, rfl⟩

/-- Witness for C7 at a concrete run: the base "http://h/" is stripped
to "http://h", and the single DELETE request of the run targets the
stripped base. -/
theorem c7_witness :
    (stripTrailingSlash "http://h/").toList = "http://h/".toList.dropLast ∧
    (∃ uid, (mkDelReq "http://h" (mkHeaders "a") "x1").url =
        stripTrailingSlash "http://h/" ++ "/api/folders/" ++ uid) :=
  ⟨(c7_trailing_slash_stripped "http://h/" "a" (.ok [toFolder ("x1", "T")])
      (fun _ => DelResult.resp 200 "")).1 (by decide),
   (c7_trailing_slash_stripped "http://h/" "a" (.ok [toFolder ("x1", "T")])
      (fun _ => DelResult.resp 200 "")).2.2.2
      (mkDelReq "http://h" (mkHeaders "a") "x1") (by decide)⟩

/-- Claim C8: the claim states that a run whose listing contains only
folders named "General" makes zero delete attempts.  The code makes
one delete attempt per listing entry — here one attempt on a listing
holding only the "General" folder — so a second run whose listing
still returns the excluded folder is not deletion-free. -/
theorem c8_general_only_listing_still_deletes :
    (deleteRequests (clean_folders "http://u" "t"
        (.ok [⟨some "g0", some "General"⟩])
        (fun _ => .resp 200 "")).2).length = 1 := by decide

/-- Claim C9: a listing entry with a missing uid or title field aborts
the run with an uncaught KeyError at that entry: outcomes and DELETE
requests exist only for the well-formed records before it, the records
after it are never processed, and no batch result is produced — the
per-item failure tolerance does not cover malformed records. -/
theorem c9_missing_field_aborts_batch (url auth : String)
    (wf : List (String × String)) (f : Folder) (post : List Folder)
    (delete : String → DelResult) (hbad : f.uid = none ∨ f.title = none) :
    (clean_folders url auth (.ok (wf.map toFolder ++ f :: post)) delete).2 =
      .keyError (wf.map fun p => mkDelReq (stripTrailingSlash url) (mkHeaders auth) p.1)
                (wf.map fun p => recordOutcome p.2 (delete p.1)) ∧
    batchResult (clean_folders url auth (.ok (wf.map toFolder ++ f :: post)) delete).2 =
      none := by
  have h := deleteLoop_aborts (stripTrailingSlash url) (mkHeaders auth) delete
    wf f post hbad
  constructor
  · simp [clean_folders, h]
  · simp [clean_folders, h, batchResult]

/-- Witness for C9 at a concrete run: a record lacking its uid sits
between a well-formed record and another well-formed record; the run
aborts after the first record's outcome, and the third record is never
touched. -/
theorem c9_witness :
    (clean_folders "http://g" "a"
        (.ok ([("x", "T")].map toFolder ++
          (⟨none, some "B"⟩ : Folder) :: [⟨some "z", some "Z"⟩]))
        (fun _ => DelResult.resp 200 "")).2 =
      .keyError [mkDelReq "http://g" (mkHeaders "a") "x"]
                [.success "T"] ∧
    batchResult (clean_folders "http://g" "a"
        (.ok ([("x", "T")].map toFolder ++
          (⟨none, some "B"⟩ : Folder) :: [⟨some "z", some "Z"⟩]))
        (fun _ => DelResult.resp 200 "")).2 = none :=
  c9_missing_field_aborts_batch "http://g" "a" [("x", "T")]
    ⟨none, some "B"⟩ [⟨some "z", some "Z"⟩]
    (fun _ => DelResult.resp 200 "") (Or.inl rfl)

/-- Claim C10: the header set is computed once from the credential and
the identical set is carried by the GET listing request and by every
DELETE request of the run. -/
theorem c10_headers_shared_across_requests (url auth : String)
    (lres : Except String (List Folder)) (delete : String → DelResult) :
    ∀ r ∈ allRequests (clean_folders url auth lres delete),
      r.headers = mkHeaders auth := by
  intro r hr
  cases lres with
  | error e =>
    simp [clean_folders, allRequests, deleteRequests] at hr
    subst hr
    rfl
  | ok folders =>
    rcases List.mem_cons.mp hr with rfl | htail
    · cases hfold : deleteLoop (stripTrailingSlash url) (mkHeaders auth) delete folders <;>
        simp [clean_folders, hfold]
    · rw [deleteRequests_ok] at htail
      obtain ⟨uid, rfl⟩ :=
        loopReqs_shape (stripTrailingSlash url) (mkHeaders auth) delete folders r htail
      rfl

/-- Witness for C10 at a concrete run with one folder: the DELETE
request of the run carries exactly the headers computed from the
credential. -/
theorem c10_witness :
    (mkDelReq "http://g" (mkHeaders "tok") "x").headers = mkHeaders "tok" :=
  c10_headers_shared_across_requests "http://g" "tok"
    (.ok [toFolder ("x", "T")]) (fun _ => DelResult.resp 200 "")
    (mkDelReq "http://g" (mkHeaders "tok") "x") (by decide)

end GrafanaClean
